import Mathlib

/-!
Verification of the pirate-farkle two-player dice game server against its
natural-language specification.

The repository ships several closely related implementations of the same
game server:
 - `V1`  : the first `server.js` variant (clientId-based seats, `held` mask,
           `scoreKeptDice`, `isFarkle`, `turn:*` handlers);
 - `V2`  : the second `server.js` variant (sid-based seats, `scoreSelection`
           over a dice/mask pair, `computeKeepable`, `game:*` handlers with an
           entry-minimum rule);
 - `P1`  : `src/unnamed/part_001` (`scoreNOfAKind`, `scoreSelection` over a
           face list, `room:join` with offline-name reclaim);
 - `P2`  : `src/unnamed/part_002` (`scoreSelected`, `availableScoringFaces`,
           a `must_roll`/`selecting`/`finished` phase machine, `join_table`).

Each namespace is a shallow embedding of the corresponding JavaScript source:
pure scoring functions become Lean functions on face lists, socket handlers
become explicit state-transformers on a `Room` record, and the random dice
produced by a roll are passed in as an explicit argument.  Rooms always hold
exactly two seat slots (an invariant of every variant), so the two-element
player arrays are embedded as pairs.  A handler that rejects an intent
returns the room unchanged (the sources return early after sending an error
toast, with no state mutation and no broadcast).

JavaScript string operations that the Lean kernel cannot reduce are embedded
at the character-list level (`lowerStr`, `trimStr`, `takeStr`): they have the
same meaning on the ASCII names exercised here.
-/

/-- Lowercase a string character by character (JS `toLowerCase`). -/
def lowerStr (s : String) : String := String.mk (s.data.map Char.toLower)

/-- Strip leading and trailing whitespace (JS `trim`). -/
def trimStr (s : String) : String :=
  String.mk (((s.data.dropWhile Char.isWhitespace).reverse.dropWhile Char.isWhitespace).reverse)

/-- First `n` characters of a string (JS `slice(0, n)`). -/
def takeStr (s : String) (n : Nat) : String := String.mk (s.data.take n)

/-- Is the string empty (used for JS falsiness of `""`). -/
def emptyStr (s : String) : Bool := s.data.isEmpty

/-- The face values 1..6, as iterated by the `for (let v = 1; v <= 6; v++)`
loops of the sources. -/
def faceRange : List Nat := List.range' 1 6

namespace V1

/-- Straight check of `scoreKeptDice` / `isFarkle`:
`[1,2,3,4,5,6].every(v => counts[v] === 1)`. -/
def straight6 (l : List Nat) : Prop := ∀ f ∈ faceRange, l.count f = 1

instance (l : List Nat) : Decidable (straight6 l) := List.decidableBAll _ _

/-- Number of faces occurring exactly twice:
`[1,2,3,4,5,6].filter(v => counts[v] === 2).length`. -/
def pairsCount (l : List Nat) : Nat :=
  (faceRange.filter (fun f => l.count f == 2)).length

/-- Number of faces occurring exactly three times:
`[1,2,3,4,5,6].filter(v => counts[v] === 3).length`. -/
def tripsCount (l : List Nat) : Nat :=
  (faceRange.filter (fun f => l.count f == 3)).length

/-- One pass of the `for (let v = 1; v <= 6; v++)` consumption loop of
`scoreKeptDice` for a single face: takes the face count, peels off a
six/five/four/three-of-a-kind in that order (`3000` / `2000` / `1000` /
triple base), and returns the points gained plus the leftover count. -/
def faceSetScore (c : Nat) (f : Nat) : Nat × Nat :=
  let s1 := if 6 ≤ c then (3000, c - 6) else (0, c)
  let s2 := if 5 ≤ s1.2 then (s1.1 + 2000, s1.2 - 5) else s1
  let s3 := if 4 ≤ s2.2 then (s2.1 + 1000, s2.2 - 4) else s2
  if 3 ≤ s3.2 then (s3.1 + (if f = 1 then 1000 else f * 100), s3.2 - 3) else s3

/-- Result of `scoreKeptDice`: the points, and whether `usedCounts` was
non-null (the validity verdict consumed by `turn:keep`). -/
structure KeptScore where
  points : Nat
  valid : Bool
deriving DecidableEq, Repr

/-- Leftover count of face `f` after the set-consumption loop of
`scoreKeptDice` (the mutated `counts` array). -/
def keptLeftover (l : List Nat) (f : Nat) : Nat := (faceSetScore (l.count f) f).2

/-- `scoreKeptDice(values)` of the first server variant: whole-six specials
(straight / three pairs / two triplets, no four-plus-pair), then flat
six/five/four/three-of-a-kind consumption per face, then leftover 1s and 5s
as singles; any leftover 2/3/4/6 invalidates the keep. -/
def scoreKeptDice (values : List Nat) : KeptScore :=
  if values.length = 0 then ⟨0, false⟩
  else if values.length = 6 ∧ straight6 values then ⟨1500, true⟩
  else if values.length = 6 ∧ pairsCount values = 3 then ⟨1500, true⟩
  else if values.length = 6 ∧ tripsCount values = 2 then ⟨2500, true⟩
  else if keptLeftover values 2 ≠ 0 ∨ keptLeftover values 3 ≠ 0 ∨
      keptLeftover values 4 ≠ 0 ∨ keptLeftover values 6 ≠ 0 then ⟨0, false⟩
  else
    ⟨(faceRange.map (fun f => (faceSetScore (values.count f) f).1)).sum +
      keptLeftover values 1 * 100 + keptLeftover values 5 * 50, true⟩

/-- `isFarkle` of the first server variant, on the unheld face values:
false when no dice were rolled, when a 1 or 5 is present, when some face has
count ≥ 3, or when all six unheld dice form a straight / three pairs / two
triplets; true (a farkle) otherwise. -/
def isFarkle (vals : List Nat) : Bool :=
  if vals.length = 0 then false
  else if 1 ∈ vals ∨ 5 ∈ vals then false
  else if ∃ f ∈ faceRange, 3 ≤ vals.count f then false
  else if vals.length = 6 ∧
      (straight6 vals ∨ pairsCount vals = 3 ∨ tripsCount vals = 2) then false
  else true

/-- A seat of the first server variant (only the fields the embedded
handlers read). -/
structure Player where
  name : String
  score : Nat
deriving DecidableEq, Repr

/-- Phase of the first server variant: `"lobby" | "turn"`. -/
inductive Phase where
  | lobby
  | turn
deriving DecidableEq, Repr

/-- Room state of the first server variant.  `held` doubles as the
selection mask: `turn:toggleHold` flips entries and `turn:keep` scores every
currently held die. -/
structure Room where
  players : Player × Player
  activeSeat : Nat
  phase : Phase
  turnPoints : Nat
  dice : List Nat
  held : List Bool
  canRoll : Bool
deriving DecidableEq, Repr

/-- `turn:toggleHold` handler: on the active seat's turn, in phase `turn`,
with an index in 0..5 and after a roll (`canRoll === false`), flip the held
flag of that die and broadcast; `some` is the broadcast room state, `none`
means the intent was dropped without a broadcast. -/
def toggleHoldStep (room : Room) (seat : Nat) (idx : Nat) : Option Room :=
  if seat ≠ room.activeSeat then none
  else if room.phase ≠ Phase.turn then none
  else if 5 < idx then none
  else if room.canRoll then none
  else some { room with held := room.held.set idx (!(room.held.getD idx false)) }

/-- `turn:bank` handler of the first server variant: on the active seat's
turn in phase `turn` it always banks (there is no `turnPoints > 0` guard):
score increases by `turnPoints`, the turn state resets, and unless the new
score reaches 10000 the active seat flips.  On a win it returns without
flipping the seat and without any game-over phase. -/
def bankStep (room : Room) (seat : Nat) : Option Room :=
  if seat ≠ room.activeSeat then none
  else if room.phase ≠ Phase.turn then none
  else
    let p := if room.activeSeat = 0 then room.players.1 else room.players.2
    let p2 : Player := { p with score := p.score + room.turnPoints }
    let players2 := if room.activeSeat = 0 then (p2, room.players.2) else (room.players.1, p2)
    let room2 : Room := { room with
      players := players2
      turnPoints := 0
      held := List.replicate 6 false
      canRoll := true }
    if 10000 ≤ p2.score then some room2
    else some { room2 with activeSeat := if room.activeSeat = 0 then 1 else 0 }

/-- The dice array after `rollDice(room)` of the first server variant, with
the outcomes of the re-rolled unheld dice supplied explicitly: held dice
keep their value. -/
def rollDice (dice : List Nat) (held : List Bool) (rolled : List Nat) : List Nat :=
  (List.range 6).map (fun i => if held.getD i false then dice.getD i 0 else rolled.getD i 0)

/-- `availableDiceValues(room)`: the values of the unheld dice. -/
def availableDiceValues (dice : List Nat) (held : List Bool) : List Nat :=
  ((dice.zip held).filter (fun p => !p.2)).map (fun p => p.1)

/-- `turn:roll` handler of the first server variant.  The guards are
checked in source order: both players seated (`bothPlayersJoined` reads the
seats' connection ids, which `V1.Room` does not model, so its verdict is
taken as an argument, like the rolled dice), phase `turn`, the active seat,
and `canRoll`.  The unheld dice are re-rolled and on a farkle the handler
resets `turnPoints`, `held` and `canRoll` and flips the seat — but it never
clears `room.dice`: the farkled values stay on the board (only `resetTurn`,
which this branch does not call, rewrites the dice).  `some` is the final
broadcast room state, `none` a rejection without broadcast. -/
def rollStep (room : Room) (seat : Nat) (rolled : List Nat) (bothJoined : Bool) : Option Room :=
  if bothJoined = false then none
  else if room.phase ≠ Phase.turn then none
  else if seat ≠ room.activeSeat then none
  else if room.canRoll = false then none
  else
    let dice2 := rollDice room.dice room.held rolled
    if isFarkle (availableDiceValues dice2 room.held) then
      some { room with
        dice := dice2
        turnPoints := 0
        held := List.replicate 6 false
        canRoll := true
        activeSeat := if room.activeSeat = 0 then 1 else 0 }
    else
      some { room with dice := dice2, canRoll := false }

end V1

namespace V2

/-- Faces selected by a boolean mask over the dice array (the values counted
by `countFaces(dice, mask)`). -/
def selectedFaces (dice : List Nat) (mask : List Bool) : List Nat :=
  ((dice.zip mask).filter (fun p => p.2)).map (fun p => p.1)

/-- `isStraight(counts)`: every face 1..6 appears exactly once. -/
def isStraight (l : List Nat) : Prop := ∀ f ∈ faceRange, l.count f = 1

instance (l : List Nat) : Decidable (isStraight l) := List.decidableBAll _ _

/-- `isThreePairs(counts)`: exactly three faces appear exactly twice. -/
def isThreePairs (l : List Nat) : Prop :=
  (faceRange.filter (fun f => l.count f == 2)).length = 3

instance (l : List Nat) : Decidable (isThreePairs l) := by
  unfold isThreePairs; infer_instance

/-- `isTwoTriplets(counts)`: exactly two faces appear exactly three times. -/
def isTwoTriplets (l : List Nat) : Prop :=
  (faceRange.filter (fun f => l.count f == 3)).length = 2

instance (l : List Nat) : Decidable (isTwoTriplets l) := by
  unfold isTwoTriplets; infer_instance

/-- `isFourPlusPair(counts)`: some face appears exactly four times and some
face appears exactly twice. -/
def isFourPlusPair (l : List Nat) : Prop :=
  (∃ f ∈ faceRange, l.count f = 4) ∧ (∃ f ∈ faceRange, l.count f = 2)

instance (l : List Nat) : Decidable (isFourPlusPair l) := by
  unfold isFourPlusPair; infer_instance

/-- Core of `scoreSelection` on the list of selected faces: whole-six special
combos first (straight / three pairs / two triplets / four-plus-pair), then
per-face `base * 2^(c-3)` for counts ≥ 3 with the whole face consumed
(`counts[f] -= c`), then remaining 1s and 5s as singles.  No leftover
validation is performed here (the handler relies on `computeKeepable`). -/
def scoreSelectionFaces (l : List Nat) : Nat :=
  if l.length = 0 then 0
  else if l.length = 6 ∧ isStraight l then 1500
  else if l.length = 6 ∧ isThreePairs l then 1500
  else if l.length = 6 ∧ isTwoTriplets l then 2500
  else if l.length = 6 ∧ isFourPlusPair l then 1500
  else
    let setPoints := (faceRange.map (fun f =>
      if 3 ≤ l.count f then (if f = 1 then 1000 else f * 100) * 2 ^ (l.count f - 3) else 0)).sum
    let left := fun f => if 3 ≤ l.count f then 0 else l.count f
    setPoints + left 1 * 100 + left 5 * 50

/-- `scoreSelection(dice, mask).score` of the second server variant. -/
def scoreSelection (dice : List Nat) (mask : List Bool) : Nat :=
  scoreSelectionFaces (selectedFaces dice mask)

/-- `computeKeepable(dice, keptMask)`: which dice may legally be kept.  If
all six unkept dice form a special combo every die is keepable; otherwise an
unkept die is keepable when its face has count ≥ 3 among the unkept dice or
is a 1 or a 5. -/
def computeKeepable (dice : List Nat) (keptMask : List Bool) : List Bool :=
  let unkept := selectedFaces dice (keptMask.map (fun b => !b))
  if unkept.length = 6 ∧
      (isStraight unkept ∨ isThreePairs unkept ∨ isTwoTriplets unkept ∨ isFourPlusPair unkept) then
    List.replicate 6 true
  else
    (List.range 6).map (fun i =>
      !(keptMask.getD i false) &&
        (decide (3 ≤ unkept.count (dice.getD i 0)) ||
          dice.getD i 0 == 1 || dice.getD i 0 == 5))

/-- Game status of the second server variant: `waiting | playing | over`. -/
inductive Status where
  | waiting
  | playing
  | over
deriving DecidableEq, Repr

/-- A seat of the second server variant. -/
structure Player where
  name : String
  sid : Option String
  score : Nat
deriving DecidableEq, Repr

/-- Game state of the second server variant (fields read or written by the
embedded handlers; `makeFreshGame` sets `targetScore = 10000` and
`entryMin = 500`). -/
structure Game where
  status : Status
  targetScore : Nat
  entryMin : Nat
  turnIndex : Nat
  dice : List Nat
  kept : List Bool
  canRoll : Bool
  turnPoints : Nat
  winner : Option Nat
deriving DecidableEq, Repr

/-- Room of the second server variant. -/
structure Room where
  players : Player × Player
  game : Game
deriving DecidableEq, Repr

/-- `room.players[seat]` with the out-of-range reads that the guards reject
mapped to a blank seat. -/
def playerAt (room : Room) (seat : Nat) : Player :=
  if seat = 0 then room.players.1
  else if seat = 1 then room.players.2
  else ⟨"", none, 0⟩

/-- Write back `room.players[seat]`. -/
def setPlayerAt (room : Room) (seat : Nat) (p : Player) : Room :=
  if seat = 0 then { room with players := (p, room.players.2) }
  else if seat = 1 then { room with players := (room.players.1, p) }
  else room

/-- `isPlayersTurn(room, seat, sid)`. -/
def isPlayersTurn (room : Room) (seat : Nat) (sock : String) : Prop :=
  room.game.status = Status.playing ∧ seat = room.game.turnIndex ∧
    (playerAt room seat).sid = some sock

instance (room : Room) (seat : Nat) (sock : String) : Decidable (isPlayersTurn room seat sock) := by
  unfold isPlayersTurn; infer_instance

/-- The seat bound to a socket id (`getSeatBySid`), if any. -/
def seatBySid (room : Room) (sock : String) : Option Nat :=
  if room.players.1.sid = some sock then some 0
  else if room.players.2.sid = some sock then some 1
  else none

/-- `game:keep` handler of the second server variant: after seat and turn
checks, `select` must be a 6-entry mask that selects at least one die, no
already-kept die, only keepable dice, and must score positive under
`scoreSelection`; then the selected dice are marked kept, the score is added
to `turnPoints`, `canRoll` is set, and hot dice resets the kept mask.
`some` is the broadcast room, `none` a rejection without broadcast. -/
def gameKeepStep (room : Room) (sock : String) (select : List Bool) : Option Room :=
  match seatBySid room sock with
  | none => none
  | some seat =>
    if ¬ isPlayersTurn room seat sock then none
    else if select.length ≠ 6 then none
    else if ∃ i ∈ List.range 6, select.getD i false ∧ room.game.kept.getD i false then none
    else if ¬ ∃ i ∈ List.range 6, select.getD i false then none
    else if ∃ i ∈ List.range 6, select.getD i false ∧
        ¬ (computeKeepable room.game.dice room.game.kept).getD i false then none
    else
      let score := scoreSelection room.game.dice select
      if score = 0 then none
      else
        let kept2 := (List.range 6).map (fun i =>
          room.game.kept.getD i false || select.getD i false)
        let g := { room.game with
          kept := kept2
          turnPoints := room.game.turnPoints + score
          canRoll := true }
        if kept2.all id then
          some { room with game := { g with kept := List.replicate 6 false } }
        else
          some { room with game := g }

/-- `endTurn(room)`: reset turn points and kept mask, allow rolling, flip the
turn. -/
def endTurn (g : Game) : Game :=
  { g with
    turnPoints := 0
    kept := List.replicate 6 false
    canRoll := true
    turnIndex := 1 - g.turnIndex }

/-- `checkWin(room)`: seat 0 first, then seat 1, against `targetScore`. -/
def checkWin (room : Room) : Option Nat :=
  if room.game.targetScore ≤ room.players.1.score then some 0
  else if room.game.targetScore ≤ room.players.2.score then some 1
  else none

/-- `game:bank` handler of the second server variant: requires a seat, the
player's turn, `turnPoints > 0`, and — when the player's total is still 0 —
`turnPoints ≥ entryMin` (the 500-point entry minimum); then credits the
score, and either records the winner (status `over`) or ends the turn. -/
def gameBankStep (room : Room) (sock : String) : Option Room :=
  match seatBySid room sock with
  | none => none
  | some seat =>
    if ¬ isPlayersTurn room seat sock then none
    else if room.game.turnPoints = 0 then none
    else if (playerAt room seat).score = 0 ∧ room.game.turnPoints < room.game.entryMin then none
    else
      let p := playerAt room seat
      let room2 := setPlayerAt room seat { p with score := p.score + room.game.turnPoints }
      match checkWin room2 with
      | some winSeat =>
        some { room2 with game := { room2.game with status := Status.over, winner := some winSeat } }
      | none =>
        some { room2 with game := endTurn room2.game }

end V2

namespace P1

/-- `scoreNOfAKind(face, n)` of part_001: the triple base is multiplied by
2 / 3 / 4 for four / five / six of a kind (double / triple / quadruple). -/
def scoreNOfAKind (face : Nat) (n : Nat) : Nat :=
  let base := if face = 1 then 1000 else face * 100
  if n = 3 then base
  else if n = 4 then base * 2
  else if n = 5 then base * 3
  else if n = 6 then base * 4
  else 0

/-- A seated player of part_001 (`{name, sid, online}`); empty slots are
`none`. -/
structure Player where
  name : String
  sid : Option String
  online : Bool
deriving DecidableEq, Repr

/-- Game stage of part_001. -/
inductive Stage where
  | WAITING
  | IN_PROGRESS
  | GAME_OVER
deriving DecidableEq, Repr

/-- Game state of part_001 (`newGameState()`). -/
structure Game where
  stage : Stage
  scores : Nat × Nat
  turnIndex : Nat
  dice : List Nat
  kept : List Bool
  canRoll : Bool
  canKeep : Bool
  canBank : Bool
  turnPoints : Nat
  winner : Option Nat
  winningScore : Nat
deriving DecidableEq, Repr

/-- Room of part_001: two nullable seat slots plus the game. -/
structure Room where
  players : Option Player × Option Player
  game : Game
deriving DecidableEq, Repr

/-- `(name || "").trim().slice(0, 20) || "Captain"`. -/
def cleanName (name : String) : String :=
  let t := takeStr (trimStr name) 20
  if emptyStr t then "Captain" else t

/-- JS truthiness of `room.players[i]?.name`: the slot is occupied and its
name is a non-empty string. -/
def namedSlot (slot : Option Player) : Bool :=
  match slot with
  | some p => !(emptyStr p.name)
  | none => false

/-- `ensureInProgress(room)`: once both seats carry a name, a WAITING game
starts — seat 0 to roll, turn state cleared.  The scores are untouched. -/
def ensureInProgress (room : Room) : Room :=
  if namedSlot room.players.1 ∧ namedSlot room.players.2 ∧ room.game.stage = Stage.WAITING then
    { room with game := { room.game with
        stage := Stage.IN_PROGRESS
        turnIndex := 0
        turnPoints := 0
        kept := List.replicate 6 false
        dice := List.replicate 6 0
        canRoll := true
        canKeep := false
        canBank := false } }
  else room

/-- Does an occupied offline slot carry this (lowercased) name?  This is the
reclaim condition `p && !p.sid && p.name.toLowerCase() === clean.toLowerCase()`
of the part_001 `room:join` handler. -/
def reclaimable (slot : Option Player) (clean : String) : Prop :=
  ∃ p, slot = some p ∧ p.sid = none ∧ lowerStr p.name = lowerStr clean

instance (slot : Option Player) (clean : String) : Decidable (reclaimable slot clean) := by
  unfold reclaimable
  cases slot with
  | none => exact isFalse (by simp)
  | some p =>
    by_cases h1 : p.sid = none
    · by_cases h2 : lowerStr p.name = lowerStr clean
      · exact isTrue ⟨p, rfl, h1, h2⟩
      · exact isFalse (by simp [h1, h2])
    · exact isFalse (by simp [h1])

/-- One reclaim attempt of the part_001 `room:join` loop body: when the slot
is occupied, offline and the names agree case-insensitively, rebind the seat
to the new socket and mark it online. -/
def tryReclaim (slot : Option Player) (clean : String) (sock : String) : Option Player :=
  match slot with
  | some p =>
    if p.sid = none ∧ lowerStr p.name = lowerStr clean then
      some { p with sid := some sock, online := true }
    else none
  | none => none

/-- `room:join` handler of part_001: first try to reclaim a seat whose name
matches case-insensitively and whose socket is gone (seat 0 before seat 1),
rebinding the socket and marking it online; otherwise fill the empty second
seat; otherwise the table is full.  Returns the updated room and the seat
granted (`none` on a full table, which leaves the room unchanged). -/
def joinStep (room : Room) (name : String) (sock : String) : Room × Option Nat :=
  let clean := cleanName name
  match tryReclaim room.players.1 clean sock with
  | some p1 => (ensureInProgress { room with players := (some p1, room.players.2) }, some 0)
  | none =>
    match tryReclaim room.players.2 clean sock with
    | some p2 => (ensureInProgress { room with players := (room.players.1, some p2) }, some 1)
    | none =>
      if room.players.2 = none then
        (ensureInProgress { room with players :=
          (room.players.1, some ⟨clean, some sock, true⟩) }, some 1)
      else (room, none)

end P1

namespace P2

/-- The values of the part_002 count `Map`: the count of each distinct face,
in first-occurrence order.  (`List.dedup` keeps one copy of each face; the
source sorts these values ascending before its checks, which cannot change a
length test or an every-element-equals test, so the sort is omitted.) -/
def valuesList (l : List Nat) : List Nat := l.dedup.map (fun f => l.count f)

/-- Straight check of part_002: `faces.every(f => counts.get(f) === 1)` on
six dice. -/
def straightCheck (l : List Nat) : Prop := ∀ f ∈ faceRange, l.count f = 1

instance (l : List Nat) : Decidable (straightCheck l) := List.decidableBAll _ _

/-- Three-pairs check of part_002: the sorted count values are `[2,2,2]`. -/
def threePairsCheck (l : List Nat) : Prop :=
  (valuesList l).length = 3 ∧ ∀ v ∈ valuesList l, v = 2

instance (l : List Nat) : Decidable (threePairsCheck l) := by
  unfold threePairsCheck; infer_instance

/-- Two-triplets check of part_002: the sorted count values are `[3,3]`
(`tripCounts.length === 2 && tripCounts[0] === 3 && tripCounts[1] === 3`). -/
def twoTripletsCheck (l : List Nat) : Prop :=
  (valuesList l).length = 2 ∧ (valuesList l).getD 0 0 = 3 ∧ (valuesList l).getD 1 0 = 3

instance (l : List Nat) : Decidable (twoTripletsCheck l) := by
  unfold twoTripletsCheck; infer_instance

/-- The count `Map` entry for face `f` after the n-of-a-kind loop of
`scoreSelected`: a face with count ≥ 3 keeps `n - 3` (`counts.set(face, n - 3)`
removes only the three dice of the base triple), any other face keeps its
count. -/
def leftoverCount (l : List Nat) (f : Nat) : Nat :=
  if 3 ≤ l.count f then l.count f - 3 else l.count f

/-- Result of `scoreSelected`. -/
structure ScoreResult where
  score : Nat
  allScoring : Bool
deriving DecidableEq, Repr

/-- The n-of-a-kind points of `scoreSelected`: each distinct face with count
≥ 3 contributes `base * 2^(n-3)` (iteration over `counts.entries()` becomes
a sum over the distinct faces). -/
def setsScore (l : List Nat) : Nat :=
  (l.dedup.map (fun f =>
    if 3 ≤ l.count f then (if f = 1 then 1000 else f * 100) * 2 ^ (l.count f - 3) else 0)).sum

/-- The full score computed by `scoreSelected`: n-of-a-kind points plus the
leftover 1s at 100 and leftover 5s at 50. -/
def selScore (l : List Nat) : Nat :=
  setsScore l + leftoverCount l 1 * 100 + leftoverCount l 5 * 50

/-- `scoreSelected(selectedFaces)` of part_002: empty selections are
rejected; six selected dice are first tested for straight / three pairs /
two triplets (there is no four-plus-pair case); otherwise each face with
count ≥ 3 contributes `base * 2^(n-3)` and leaves `n - 3` dice in the map,
leftover 1s and 5s score as singles, and any other leftover face invalidates
the whole selection. -/
def scoreSelected (l : List Nat) : ScoreResult :=
  if l.length = 0 then ⟨0, false⟩
  else if l.length = 6 ∧ straightCheck l then ⟨1500, true⟩
  else if l.length = 6 ∧ threePairsCheck l then ⟨1500, true⟩
  else if l.length = 6 ∧ twoTripletsCheck l then ⟨2500, true⟩
  else if ∃ f ∈ l, f ≠ 1 ∧ f ≠ 5 ∧ leftoverCount l f ≠ 0 then ⟨0, false⟩
  else ⟨selScore l, decide (0 < selScore l)⟩

/-- `availableScoringFaces(diceFaces)` of part_002, the farkle quick check:
a whole-six straight / three pairs / two triplets, any 1, any 5, or any face
with count ≥ 3. -/
def availableScoringFaces (l : List Nat) : Bool :=
  if l.length = 6 ∧ straightCheck l then true
  else if l.length = 6 ∧ threePairsCheck l then true
  else if l.length = 6 ∧ twoTripletsCheck l then true
  else if 0 < l.count 1 then true
  else if 0 < l.count 5 then true
  else decide (∃ f ∈ l, 3 ≤ l.count f)

/-- A seat of part_002 (`{name, socketId, score, online}`; `name = none` is
the unoccupied `null`). -/
structure Player where
  name : Option String
  socketId : Option String
  score : Nat
  online : Bool
deriving DecidableEq, Repr

/-- Game phase of part_002: `waiting | must_roll | selecting | finished`. -/
inductive Phase where
  | waiting
  | mustRoll
  | selecting
  | finished
deriving DecidableEq, Repr

/-- Game state of part_002 (presentational `lastAction` omitted). -/
structure Game where
  started : Bool
  winnerSeat : Option Nat
  turnSeat : Nat
  phase : Phase
  dice : List Nat
  keptMask : List Bool
  remaining : Nat
  turnPoints : Nat
deriving DecidableEq, Repr

/-- Room of part_002: always exactly two seat slots. -/
structure Room where
  players : Player × Player
  game : Game
deriving DecidableEq, Repr

/-- `freshGame()`. -/
def freshGame : Game :=
  ⟨false, none, 0, Phase.waiting, List.replicate 6 0, List.replicate 6 false, 6, 0⟩

/-- `room.players[seat]`; reads outside the two slots (which the guards
reject) yield a blank seat. -/
def playerAt (room : Room) (seat : Nat) : Player :=
  if seat = 0 then room.players.1
  else if seat = 1 then room.players.2
  else ⟨none, none, 0, false⟩

/-- Write back `room.players[seat]`. -/
def setPlayerAt (room : Room) (seat : Nat) (p : Player) : Room :=
  if seat = 0 then { room with players := (p, room.players.2) }
  else if seat = 1 then { room with players := (room.players.1, p) }
  else room

/-- `resetTurnKeep(room)`: clear turn points, dice, kept mask, remaining. -/
def resetTurnKeep (g : Game) : Game :=
  { g with
    turnPoints := 0
    dice := List.replicate 6 0
    keptMask := List.replicate 6 false
    remaining := 6 }

/-- JS truthiness of `room.players[i].name`. -/
def namedSeat (p : Player) : Bool :=
  match p.name with
  | some n => !(emptyStr n)
  | none => false

/-- `startIfReady(room)`: once both seats are named and the game has not
started, start it — seat 0 to roll, phase `must_roll`, turn state cleared. -/
def startIfReady (room : Room) : Room :=
  if namedSeat room.players.1 ∧ namedSeat room.players.2 ∧ room.game.started = false then
    { room with game := resetTurnKeep { room.game with
        started := true
        winnerSeat := none
        turnSeat := 0
        phase := Phase.mustRoll } }
  else room

/-- `nextTurn(room)`: with a winner recorded the phase just becomes
`finished`; otherwise the seat flips, the phase returns to `must_roll` and
the turn state is cleared. -/
def nextTurn (g : Game) : Game :=
  if g.winnerSeat ≠ none then { g with phase := Phase.finished }
  else resetTurnKeep { g with
    turnSeat := if g.turnSeat = 0 then 1 else 0
    phase := Phase.mustRoll }

/-- The dice array after `rollDice(room)`, with the outcomes of the
re-rolled unkept dice supplied explicitly: kept dice keep their value. -/
def mergeDice (dice : List Nat) (kept : List Bool) (rolled : List Nat) : List Nat :=
  (List.range 6).map (fun i => if kept.getD i false then dice.getD i 0 else rolled.getD i 0)

/-- `dice.filter((_, idx) => !keptMask[idx])`: the unkept faces. -/
def unkeptFaces (dice : List Nat) (kept : List Bool) : List Nat :=
  ((dice.zip kept).filter (fun p => !p.2)).map (fun p => p.1)

/-- First-occurrence deduplication, as `[...new Set(idxs)]`. -/
def dedupFirst (l : List Nat) : List Nat :=
  l.foldl (fun acc x => if x ∈ acc then acc else acc ++ [x]) []

/-- The sanitized index list of the part_002 `keep` handler:
`[...new Set(idxs)].filter(i => Number.isInteger(i) && i >= 0 && i < 6)`
(indices are embedded as naturals, so the integrality and sign tests are
implicit). -/
def uniqueIndices (idxs : List Nat) : List Nat :=
  (dedupFirst idxs).filter (fun i => i < 6)

/-- A client intent of part_002, carrying the session data the handlers read
from the socket (`socket.data.seat`, `socket.id`) and, for a roll, the
outcomes of the re-rolled dice. -/
inductive Intent where
  | joinTable (name : String) (sock : String)
  | newGame
  | roll (seat : Nat) (sock : String) (rolled : List Nat)
  | keep (seat : Nat) (sock : String) (indices : List Nat)
  | bank (seat : Nat) (sock : String)
  | disconnect (seat : Nat) (sock : String)
deriving DecidableEq, Repr

/-- `(name || "").trim().slice(0, 20) || "Player"`. -/
def safeNameOf (name : String) : String :=
  let t := takeStr (trimStr name) 20
  if emptyStr t then "Player" else t

/-- Case-insensitive name match of the part_002 `join_table` reclaim loop:
`room.players[i].name && room.players[i].name.toLowerCase() === safeName.toLowerCase()`.
Note the seat's online status is not consulted. -/
def nameMatches (p : Player) (safeName : String) : Bool :=
  match p.name with
  | some n => !(emptyStr n) && (lowerStr n == lowerStr safeName)
  | none => false

/-- The part_002 socket handlers as one state-transformer on a room.  A
rejected intent returns the room unchanged (the source replies with a toast
and performs no mutation and no broadcast). -/
def applyIntent (room : Room) : Intent → Room
  | Intent.joinTable name sock =>
    let safeName := safeNameOf name
    let seat? :=
      if nameMatches room.players.1 safeName then some 0
      else if nameMatches room.players.2 safeName then some 1
      else if namedSeat room.players.1 = false then some 0
      else if namedSeat room.players.2 = false then some 1
      else none
    match seat? with
    | none => room
    | some seat =>
      let p := playerAt room seat
      startIfReady (setPlayerAt room seat
        { p with name := some safeName, socketId := some sock, online := true })
  | Intent.newGame =>
    startIfReady { room with
      players := ({ room.players.1 with score := 0 }, { room.players.2 with score := 0 })
      game := freshGame }
  | Intent.roll seat sock rolled =>
    if room.game.started = false then room
    else if seat ≠ room.game.turnSeat then room
    else if (playerAt room seat).socketId ≠ some sock then room
    else if room.game.phase ≠ Phase.mustRoll ∧ room.game.phase ≠ Phase.selecting then room
    else
      let dice2 := mergeDice room.game.dice room.game.keptMask rolled
      let rolledFaces := unkeptFaces dice2 room.game.keptMask
      if availableScoringFaces rolledFaces = false then
        { room with game := nextTurn { room.game with dice := dice2 } }
      else
        { room with game := { room.game with dice := dice2, phase := Phase.selecting } }
  | Intent.keep seat sock idxs =>
    if room.game.started = false then room
    else if seat ≠ room.game.turnSeat then room
    else if (playerAt room seat).socketId ≠ some sock then room
    else if room.game.phase ≠ Phase.selecting then room
    else
      let unique := uniqueIndices idxs
      if unique.any (fun i => room.game.keptMask.getD i false) then room
      else
        let faces := unique.map (fun i => room.game.dice.getD i 0)
        let res := scoreSelected faces
        if res.allScoring = false then room
        else
          let kept2 := unique.foldl (fun m i => m.set i true) room.game.keptMask
          let g := { room.game with
            keptMask := kept2
            turnPoints := room.game.turnPoints + res.score }
          if kept2.all id then
            { room with game := { g with
                keptMask := List.replicate 6 false
                remaining := 6
                phase := Phase.mustRoll } }
          else
            { room with game := { g with
                remaining := 6 - (kept2.filter id).length
                phase := Phase.mustRoll } }
  | Intent.bank seat sock =>
    if room.game.started = false then room
    else if seat ≠ room.game.turnSeat then room
    else if (playerAt room seat).socketId ≠ some sock then room
    else if room.game.turnPoints = 0 then room
    else
      let p := playerAt room seat
      let room2 := setPlayerAt room seat { p with score := p.score + room.game.turnPoints }
      if 10000 ≤ p.score + room.game.turnPoints then
        { room2 with game := { room2.game with
            winnerSeat := some seat
            phase := Phase.finished } }
      else
        { room2 with game := nextTurn room2.game }
  | Intent.disconnect seat sock =>
    if (seat = 0 ∨ seat = 1) ∧ (playerAt room seat).socketId = some sock then
      setPlayerAt room seat { playerAt room seat with online := false, socketId := none }
    else room

end P2

/-! ## Helper lemmas -/

/-- `scoreSelectionFaces` only depends on the length and the face counts of
the selection, so it is invariant under permutation. -/
theorem scoreSelectionFaces_congr (l t : List Nat) (h : l.Perm t) :
    V2.scoreSelectionFaces l = V2.scoreSelectionFaces t := by
  unfold V2.scoreSelectionFaces V2.isStraight V2.isThreePairs V2.isTwoTriplets V2.isFourPlusPair
  simp only [h.length_eq, h.count_eq]

/-! ## Claim C1 -/

/-- C1, counterexample: the claim states that the Scoring Engine awards
`base * 2^(count-3)` for a face with count ≥ 3 and in particular scores the
selection `[1,1,1,1,1,1]` as exactly 8000; but `scoreKeptDice` (server.js,
first variant) scores six 1s as a flat 3000 six-of-a-kind, and
`scoreNOfAKind` (part_001) multiplies the triple base by 4, giving 4000. -/
theorem c1_counterexample :
    (V1.scoreKeptDice (List.replicate 6 1)).points = 3000 ∧
    (V1.scoreKeptDice (List.replicate 6 1)).points ≠ 8000 ∧
    P1.scoreNOfAKind 1 6 = 4000 ∧ P1.scoreNOfAKind 1 6 ≠ 8000 := by decide

/-- C1, amended: the `2^(count-3)` rule with full consumption of the face
holds for `scoreSelection` of the second server.js variant: a selection of
`c` copies of face `f` (3 ≤ c ≤ 6) scores `(1000 if f = 1 else f*100) * 2^(c-3)`,
so `[1,1,1,1,1,1]` scores 8000 there.  (`scoreKeptDice` instead awards flat
1000/2000/3000 for four/five/six of a kind, `scoreNOfAKind` multiplies the
base by 2/3/4, and part_002's `scoreSelected` consumes only three dice of
the face, scoring six 1s as 8300.) -/
theorem c1_pow_of_a_kind (f c : Nat) (hf1 : 1 ≤ f) (hf6 : f ≤ 6) (hc3 : 3 ≤ c) (hc6 : c ≤ 6) :
    V2.scoreSelectionFaces (List.replicate c f) =
      (if f = 1 then 1000 else f * 100) * 2 ^ (c - 3) := by
  interval_cases f <;> interval_cases c <;> decide

/-- C1, witness: the amended theorem applied at six 1s (8000 points) and at
four 2s (400 points). -/
theorem c1_pow_of_a_kind_witness :
    V2.scoreSelectionFaces (List.replicate 6 1) = 8000 ∧
    V2.scoreSelectionFaces (List.replicate 4 2) = 400 := by
  refine ⟨?_, ?_⟩
  · have h := c1_pow_of_a_kind 1 6 (by decide) (by decide) (by decide) (by decide)
    simpa using h
  · have h := c1_pow_of_a_kind 2 4 (by decide) (by decide) (by decide) (by decide)
    simpa using h

/-! ## Claim C2 -/

/-- C2, amended: the all-or-nothing rule holds for part_002's
`scoreSelected`: outside the whole-six special combos, a selection
containing a die of face 2/3/4/6 whose face has count < 3 is invalid as a
whole (`allScoring = false`), with no partial credit — in particular the
selection `[2,2,3]` is invalid.  (The second server.js variant's
`scoreSelection` performs no such leftover check — see the counterexample.) -/
theorem c2_leftover_invalidates (l : List Nat)
    (hspecial : ¬ (l.length = 6 ∧
      (P2.straightCheck l ∨ P2.threePairsCheck l ∨ P2.twoTripletsCheck l)))
    (hbad : ∃ f ∈ l, f ≠ 1 ∧ f ≠ 5 ∧ l.count f < 3) :
    (P2.scoreSelected l).allScoring = false := by
  obtain ⟨f, hfmem, hf1, hf5, hcnt⟩ := hbad
  have hpos : 0 < l.count f := List.count_pos_iff.mpr hfmem
  have hbad2 : ∃ g ∈ l, g ≠ 1 ∧ g ≠ 5 ∧ P2.leftoverCount l g ≠ 0 := by
    refine ⟨f, hfmem, hf1, hf5, ?_⟩
    unfold P2.leftoverCount
    rw [if_neg (by omega)]
    omega
  unfold P2.scoreSelected
  split_ifs with h0 h1 h2 h3
  · rfl
  · exact absurd ⟨h1.1, Or.inl h1.2⟩ hspecial
  · exact absurd ⟨h2.1, Or.inr (Or.inl h2.2)⟩ hspecial
  · exact absurd ⟨h3.1, Or.inr (Or.inr h3.2)⟩ hspecial
  · rfl

/-- C2, witness: the amended theorem applied at the claim's own example — the
selection `[2,2,3]` is rejected outright. -/
theorem c2_leftover_invalidates_witness : (P2.scoreSelected [2, 2, 3]).allScoring = false :=
  c2_leftover_invalidates [2, 2, 3] (by decide) (by decide)

/-- C2, counterexample: the claim says every selection with a leftover
2/3/4/6 die is rejected with no state change; but the second server.js
variant accepts one: on the roll `[2,2,2,1,5,5]` the active seat selects one
2 and the 1 — the lone 2 scores nothing and has count 1 < 3 in the
selection, yet `computeKeepable` blesses it (the unkept 2s have count 3) and
`scoreSelection` returns 100 without any leftover validation, so the keep is
accepted: the 2 is locked in and 100 points are credited. -/
theorem c2_counterexample :
    (V2.gameKeepStep
      ⟨(⟨"Ann", some "s0", 0⟩, ⟨"Bea", some "s1", 0⟩),
        ⟨V2.Status.playing, 10000, 500, 0, [2, 2, 2, 1, 5, 5],
          List.replicate 6 false, false, 0, none⟩⟩
      "s0" [true, false, false, true, false, false] =
      some ⟨(⟨"Ann", some "s0", 0⟩, ⟨"Bea", some "s1", 0⟩),
        ⟨V2.Status.playing, 10000, 500, 0, [2, 2, 2, 1, 5, 5],
          [true, false, false, true, false, false], true, 100, none⟩⟩) ∧
    (V2.selectedFaces [2, 2, 2, 1, 5, 5]
      [true, false, false, true, false, false]).count 2 = 1 := by decide

/-! ## Claim C3 -/

/-- C3, counterexample: the claim says every all-six selection with a
count-4 face and a count-2 face scores 1500; but `scoreKeptDice` (server.js,
first variant) has no four-plus-pair combo and decomposes `[2,2,2,2,5,5]`
into a flat four-of-a-kind 1000 plus two single 5s (1100 ≠ 1500), and
part_002's `scoreSelected` rejects the same selection outright (its
four-of-a-kind leaves a leftover 2 in the count map). -/
theorem c3_counterexample :
    (V1.scoreKeptDice [2, 2, 2, 2, 5, 5]).points = 1100 ∧
    (V1.scoreKeptDice [2, 2, 2, 2, 5, 5]).points ≠ 1500 ∧
    (P2.scoreSelected [2, 2, 2, 2, 5, 5]).allScoring = false := by decide

/-- C3, amended: the four-of-a-kind-plus-pair special combo holds for
`scoreSelection` of the second server.js variant (where `isFourPlusPair` is
tested before face decomposition): every six-dice selection in which face `a`
appears exactly four times and face `b` exactly twice scores exactly 1500. -/
theorem c3_four_plus_pair (l : List Nat) (a b : Nat) (hab : a ≠ b)
    (ha1 : 1 ≤ a) (ha6 : a ≤ 6) (hb1 : 1 ≤ b) (hb6 : b ≤ 6)
    (hca : l.count a = 4) (hcb : l.count b = 2) (hlen : l.length = 6) :
    V2.scoreSelectionFaces l = 1500 := by
  have hsub : (List.replicate 4 a ++ List.replicate 2 b).Subperm l := by
    rw [List.subperm_ext_iff]
    intro x hx
    rcases List.mem_append.mp hx with h | h
    · have hxa : x = a := List.eq_of_mem_replicate h
      subst hxa
      have e1 : (List.replicate 4 x).count x = 4 := by simp
      have e2 : (List.replicate 2 b).count x = 0 := by
        simp only [List.count_replicate, beq_iff_eq]
        simp [Ne.symm hab]
      rw [List.count_append, e1, e2, hca]
    · have hxb : x = b := List.eq_of_mem_replicate h
      subst hxb
      have e1 : (List.replicate 4 a).count x = 0 := by
        simp only [List.count_replicate, beq_iff_eq]
        simp [hab]
      have e2 : (List.replicate 2 x).count x = 2 := by simp
      rw [List.count_append, e1, e2, hcb]
  have hperm : (List.replicate 4 a ++ List.replicate 2 b).Perm l :=
    hsub.perm_of_length_le (by simp [hlen])
  rw [scoreSelectionFaces_congr l _ hperm.symm]
  interval_cases a <;> interval_cases b <;> first
    | exact absurd rfl hab
    | decide

/-- C3, witness: the amended theorem applied at `[2,2,2,2,5,5]`. -/
theorem c3_four_plus_pair_witness : V2.scoreSelectionFaces [2, 2, 2, 2, 5, 5] = 1500 :=
  c3_four_plus_pair [2, 2, 2, 2, 5, 5] 2 5 (by decide) (by decide) (by decide) (by decide)
    (by decide) (by decide) (by decide) (by decide)

/-! ## Claim C4 -/

/-- Whenever all six dice fall into one of the whole-six special combos that
`scoreKeptDice` recognises, keeping all of them scores positively. -/
theorem scoreKeptDice_pos_of_special (l : List Nat) (hlen : l.length = 6)
    (hsp : V1.straight6 l ∨ V1.pairsCount l = 3 ∨ V1.tripsCount l = 2) :
    0 < (V1.scoreKeptDice l).points := by
  unfold V1.scoreKeptDice
  rw [if_neg (by omega)]
  rcases hsp with hs | hp | ht
  · rw [if_pos ⟨hlen, hs⟩]; decide
  · by_cases hs : V1.straight6 l
    · rw [if_pos ⟨hlen, hs⟩]; decide
    · rw [if_neg (fun hh => hs hh.2), if_pos ⟨hlen, hp⟩]; decide
  · by_cases hs : V1.straight6 l
    · rw [if_pos ⟨hlen, hs⟩]; decide
    · by_cases hp : V1.pairsCount l = 3
      · rw [if_neg (fun hh => hs hh.2), if_pos ⟨hlen, hp⟩]; decide
      · rw [if_neg (fun hh => hs hh.2), if_neg (fun hh => hp hh.2),
          if_pos ⟨hlen, ht⟩]; decide

/-- A face count bounded by two contributes nothing to the n-of-a-kind loop
of `scoreKeptDice` and is left over unchanged. -/
theorem faceSetScore_of_le_two (c f : Nat) (h : c ≤ 2) : V1.faceSetScore c f = (0, c) := by
  unfold V1.faceSetScore
  have h6 : ¬ 6 ≤ c := by omega
  have h5 : ¬ 5 ≤ c := by omega
  have h4 : ¬ 4 ≤ c := by omega
  have h3 : ¬ 3 ≤ c := by omega
  simp [h6, h5, h4, h3]

/-- Core of the farkle direction for the first server variant: when the
unheld dice contain no 1 and no 5, no face three or more times, and (when
all six are in play) no special combo, then every sub-multiset of them keeps
for zero points under `scoreKeptDice`. -/
theorem scoreKeptDice_zero (vals s : List Nat)
    (hsub : s.Subperm vals) (hlen : vals.length ≤ 6)
    (h1 : 1 ∉ vals) (h5 : 5 ∉ vals)
    (hc : ∀ f ∈ faceRange, vals.count f ≤ 2)
    (hnsp : ¬ (vals.length = 6 ∧
      (V1.straight6 vals ∨ V1.pairsCount vals = 3 ∨ V1.tripsCount vals = 2))) :
    (V1.scoreKeptDice s).points = 0 := by
  have hcnt := hsub.count_le
  have hc1 : s.count 1 = 0 :=
    Nat.le_zero.mp ((hcnt 1).trans (Nat.le_of_eq (List.count_eq_zero.mpr h1)))
  have hc5 : s.count 5 = 0 :=
    Nat.le_zero.mp ((hcnt 5).trans (Nat.le_of_eq (List.count_eq_zero.mpr h5)))
  have hcf : ∀ f ∈ faceRange, s.count f ≤ 2 := fun f hf => (hcnt f).trans (hc f hf)
  unfold V1.scoreKeptDice
  split_ifs with g0 g1 g2 g3 g4
  · rfl
  · -- a straight needs a 1
    have := g1.2 1 (by decide)
    omega
  · -- three pairs in the sub-multiset force the whole six dice, hence a
    -- permutation of `vals`, contradicting the absent special combo
    have hperm : s.Perm vals := hsub.perm_of_length_le (by omega)
    have hpv : V1.pairsCount vals = 3 := by
      have : V1.pairsCount s = V1.pairsCount vals := by
        unfold V1.pairsCount
        simp only [hperm.count_eq]
      omega
    exact absurd ⟨by rw [← hperm.length_eq]; exact g2.1, Or.inr (Or.inl hpv)⟩ hnsp
  · -- two triplets need a face with count three
    have hne : (faceRange.filter (fun f => s.count f == 3)) ≠ [] := by
      intro he
      have := g3.2
      unfold V1.tripsCount at this
      rw [he] at this
      simp at this
    obtain ⟨f, hf⟩ := List.exists_mem_of_ne_nil _ hne
    have hf2 := List.mem_filter.mp hf
    have : s.count f = 3 := by simpa using hf2.2
    have := hcf f hf2.1
    omega
  · rfl
  · -- no sets, no singles: the computed total is zero
    have hsum : (faceRange.map (fun f => (V1.faceSetScore (s.count f) f).1)).sum = 0 := by
      apply List.sum_eq_zero
      intro x hx
      obtain ⟨f, hf, hfx⟩ := List.mem_map.mp hx
      rw [faceSetScore_of_le_two _ _ (hcf f hf)] at hfx
      exact hfx.symm
    have hl1 : V1.keptLeftover s 1 = 0 := by
      unfold V1.keptLeftover
      rw [hc1, faceSetScore_of_le_two 0 1 (by omega)]
    have hl5 : V1.keptLeftover s 5 = 0 := by
      unfold V1.keptLeftover
      rw [hc5, faceSetScore_of_le_two 0 5 (by omega)]
    simp [hsum, hl1, hl5]

/-- Positive direction for the first server variant: when `isFarkle` reports
a scoring option, some non-empty sub-multiset keeps for positive points. -/
theorem exists_scoring_of_not_farkle (vals : List Nat) (hlen1 : 1 ≤ vals.length)
    (h : V1.isFarkle vals = false) :
    ∃ s, s.Subperm vals ∧ s ≠ [] ∧ 0 < (V1.scoreKeptDice s).points := by
  unfold V1.isFarkle at h
  split_ifs at h with g0 g1 g2 g3
  · omega
  · rcases g1 with hm | hm
    · exact ⟨[1], (List.singleton_sublist.mpr hm).subperm, by simp, by decide⟩
    · exact ⟨[5], (List.singleton_sublist.mpr hm).subperm, by simp, by decide⟩
  · obtain ⟨f, hfr, hcnt⟩ := g2
    refine ⟨List.replicate 3 f, (List.le_count_iff_replicate_sublist.mp hcnt).subperm,
      by simp, ?_⟩
    fin_cases hfr <;> decide
  · refine ⟨vals, List.Subperm.refl vals, ?_, ?_⟩
    · intro he
      rw [he] at g3
      simp at g3
    · exact scoreKeptDice_pos_of_special vals g3.1 g3.2

/-- Whenever all six dice fall into one of the whole-six special combos that
`scoreSelected` recognises, keeping all of them is a valid scoring
selection. -/
theorem scoreSelected_true_of_special (l : List Nat) (hlen : l.length = 6)
    (hsp : P2.straightCheck l ∨ P2.threePairsCheck l ∨ P2.twoTripletsCheck l) :
    (P2.scoreSelected l).allScoring = true := by
  unfold P2.scoreSelected
  rw [if_neg (by omega)]
  rcases hsp with hs | hp | ht
  · rw [if_pos ⟨hlen, hs⟩]
  · by_cases hs : P2.straightCheck l
    · rw [if_pos ⟨hlen, hs⟩]
    · rw [if_neg (fun hh => hs hh.2), if_pos ⟨hlen, hp⟩]
  · by_cases hs : P2.straightCheck l
    · rw [if_pos ⟨hlen, hs⟩]
    · by_cases hp : P2.threePairsCheck l
      · rw [if_neg (fun hh => hs hh.2), if_pos ⟨hlen, hp⟩]
      · rw [if_neg (fun hh => hs hh.2), if_neg (fun hh => hp hh.2), if_pos ⟨hlen, ht⟩]

/-- The count multiset of the distinct faces is permutation-invariant. -/
theorem valuesList_perm (s l : List Nat) (h : s.Perm l) :
    (P2.valuesList s).Perm (P2.valuesList l) := by
  unfold P2.valuesList
  have hmap : s.dedup.map (fun f => s.count f) = s.dedup.map (fun f => l.count f) :=
    List.map_congr_left (fun x _ => h.count_eq x)
  rw [hmap]
  exact (h.dedup).map _

/-- `threePairsCheck` is permutation-invariant. -/
theorem threePairsCheck_perm (s l : List Nat) (h : s.Perm l) :
    P2.threePairsCheck s ↔ P2.threePairsCheck l := by
  unfold P2.threePairsCheck
  have hv := valuesList_perm s l h
  constructor
  · rintro ⟨hL, hall⟩
    exact ⟨by rw [← hv.length_eq]; exact hL, fun v hvm => hall v (hv.mem_iff.mpr hvm)⟩
  · rintro ⟨hL, hall⟩
    exact ⟨by rw [hv.length_eq]; exact hL, fun v hvm => hall v (hv.mem_iff.mp hvm)⟩

/-- A list passing `twoTripletsCheck` has a face with count three. -/
theorem count_three_of_twoTriplets (s : List Nat) (h : P2.twoTripletsCheck s) :
    ∃ f ∈ s, s.count f = 3 := by
  obtain ⟨hL, hg0, _⟩ := h
  rcases e : P2.valuesList s with _ | ⟨a, rest⟩
  · rw [e] at hL; simp at hL
  · have ha : a = 3 := by rw [e] at hg0; simpa using hg0
    have hmem : (3 : Nat) ∈ P2.valuesList s := by
      rw [e, ← ha]
      exact List.mem_cons_self _ _
    unfold P2.valuesList at hmem
    obtain ⟨f, hfd, hfc⟩ := List.mem_map.mp hmem
    exact ⟨f, List.mem_dedup.mp hfd, hfc⟩

/-- Core of the farkle direction for part_002: when the rolled dice contain
no 1 and no 5, no face three or more times, and no three-pairs combo over
all six, every sub-multiset of them is rejected by `scoreSelected`. -/
theorem scoreSelected_false_subsets (l s : List Nat)
    (hsub : s.Subperm l) (hlen : l.length ≤ 6)
    (h1 : l.count 1 = 0) (h5 : l.count 5 = 0)
    (hc : ∀ f ∈ l, l.count f ≤ 2)
    (hn3p : ¬ (l.length = 6 ∧ P2.threePairsCheck l)) :
    (P2.scoreSelected s).allScoring = false := by
  have hcnt := hsub.count_le
  have hmem : ∀ f ∈ s, f ∈ l := fun f hf =>
    List.count_pos_iff.mp (Nat.lt_of_lt_of_le (List.count_pos_iff.mpr hf) (hcnt f))
  have hcs : ∀ f ∈ s, s.count f ≤ 2 := fun f hf => (hcnt f).trans (hc f (hmem f hf))
  unfold P2.scoreSelected
  split_ifs with g0 g1 g2 g3 g4
  · rfl
  · -- a straight needs a 1
    have h11 := g1.2 1 (by decide)
    have := hcnt 1
    omega
  · -- three pairs in the sub-multiset force a permutation of `l`
    have hperm : s.Perm l := hsub.perm_of_length_le (by omega)
    exact absurd ⟨by rw [← hperm.length_eq]; exact g2.1,
      (threePairsCheck_perm s l hperm).mp g2.2⟩ hn3p
  · -- two triplets need a face with count three
    obtain ⟨f, hfs, hf3⟩ := count_three_of_twoTriplets s g3.2
    have := hcs f hfs
    omega
  · rfl
  · -- no sets and no singles: the selection score is zero
    have hz : P2.selScore s = 0 := by
      unfold P2.selScore P2.setsScore P2.leftoverCount
      have hs1 : s.count 1 = 0 := by have := hcnt 1; omega
      have hs5 : s.count 5 = 0 := by have := hcnt 5; omega
      have hsum : (s.dedup.map (fun f =>
          if 3 ≤ s.count f then (if f = 1 then 1000 else f * 100) * 2 ^ (s.count f - 3)
          else 0)).sum = 0 := by
        apply List.sum_eq_zero
        intro x hx
        obtain ⟨f, hfd, hfx⟩ := List.mem_map.mp hx
        have := hcs f (List.mem_dedup.mp hfd)
        rw [if_neg (by omega)] at hfx
        exact hfx.symm
      rw [hsum, hs1, hs5]
      simp
    simp [hz]

/-- Positive direction for part_002: when `availableScoringFaces` reports a
scoring option, some non-empty sub-multiset is a valid selection. -/
theorem exists_scoring_of_asf (l : List Nat)
    (hface : ∀ f ∈ l, 1 ≤ f ∧ f ≤ 6)
    (h : P2.availableScoringFaces l = true) :
    ∃ s, s.Subperm l ∧ s ≠ [] ∧ (P2.scoreSelected s).allScoring = true := by
  have hne6 : ∀ h6 : l.length = 6, l ≠ [] := by
    intro h6 he
    rw [he] at h6
    simp at h6
  unfold P2.availableScoringFaces at h
  split_ifs at h with g0 g1 g2 g3 g4
  · exact ⟨l, List.Subperm.refl l, hne6 g0.1,
      scoreSelected_true_of_special l g0.1 (Or.inl g0.2)⟩
  · exact ⟨l, List.Subperm.refl l, hne6 g1.1,
      scoreSelected_true_of_special l g1.1 (Or.inr (Or.inl g1.2))⟩
  · exact ⟨l, List.Subperm.refl l, hne6 g2.1,
      scoreSelected_true_of_special l g2.1 (Or.inr (Or.inr g2.2))⟩
  · exact ⟨[1], (List.singleton_sublist.mpr (List.count_pos_iff.mp g3)).subperm,
      by simp, by decide⟩
  · exact ⟨[5], (List.singleton_sublist.mpr (List.count_pos_iff.mp g4)).subperm,
      by simp, by decide⟩
  · obtain ⟨f, hfm, hcnt⟩ := of_decide_eq_true h
    have hfr : f ∈ faceRange := by
      obtain ⟨hb1, hb2⟩ := hface f hfm
      have he : faceRange = [1, 2, 3, 4, 5, 6] := rfl
      rw [he]
      interval_cases f <;> simp
    refine ⟨List.replicate 3 f, (List.le_count_iff_replicate_sublist.mp hcnt).subperm,
      by simp, ?_⟩
    fin_cases hfr <;> decide

/-- C4: the quick-check Farkle Detectors agree with brute-force subset
search over their own Scoring Engines.  For 1 to 6 unkept face values,
`isFarkle` (first server variant) is true exactly when no non-empty
sub-multiset keeps for positive points under `scoreKeptDice`, and
`availableScoringFaces` (part_002) is false exactly when no non-empty
sub-multiset is a valid selection under `scoreSelected`. -/
theorem c4_detector_complete (vals : List Nat)
    (hface : ∀ f ∈ vals, 1 ≤ f ∧ f ≤ 6)
    (hlen1 : 1 ≤ vals.length) (hlen6 : vals.length ≤ 6) :
    (V1.isFarkle vals = true ↔
      ¬ ∃ s, s.Subperm vals ∧ s ≠ [] ∧ 0 < (V1.scoreKeptDice s).points) ∧
    (P2.availableScoringFaces vals = false ↔
      ¬ ∃ s, s.Subperm vals ∧ s ≠ [] ∧ (P2.scoreSelected s).allScoring = true) := by
  constructor
  · constructor
    · intro hf
      rintro ⟨s, hsub, hne, hpos⟩
      -- extract the farkle conditions from `isFarkle vals = true`
      unfold V1.isFarkle at hf
      split_ifs at hf with g0 g1 g2 g3
      have hz := scoreKeptDice_zero vals s hsub hlen6
        (fun hm => g1 (Or.inl hm)) (fun hm => g1 (Or.inr hm))
        (fun f hfr => by
          by_contra hgt
          exact g2 ⟨f, hfr, by omega⟩)
        g3
      omega
    · intro hn
      rcases hb : V1.isFarkle vals with _ | _
      · exact absurd (exists_scoring_of_not_farkle vals hlen1 hb) hn
      · rfl
  · constructor
    · intro hf
      rintro ⟨s, hsub, hne, htrue⟩
      -- extract the no-scoring conditions from `availableScoringFaces vals = false`
      unfold P2.availableScoringFaces at hf
      split_ifs at hf with g0 g1 g2 g3 g4
      have hnex : ¬ ∃ f ∈ vals, 3 ≤ vals.count f := of_decide_eq_false hf
      have hz := scoreSelected_false_subsets vals s hsub hlen6
        (by omega) (by omega)
        (fun f hfm => by
          by_contra hgt
          exact hnex ⟨f, hfm, by omega⟩)
        g1
      rw [hz] at htrue
      exact absurd htrue (by decide)
    · intro hn
      rcases hb : P2.availableScoringFaces vals with _ | _
      · rfl
      · exact absurd (exists_scoring_of_asf vals hface hb) hn

/-- C4, witness: the theorem applied at the concrete rolls `[2,3]` (a
farkle: no subset scores in either engine) — both detectors' verdicts are
checked by evaluation and yield the impossibility of a scoring subset. -/
theorem c4_detector_complete_witness :
    (¬ ∃ s, s.Subperm [2, 3] ∧ s ≠ [] ∧ 0 < (V1.scoreKeptDice s).points) ∧
    (¬ ∃ s, s.Subperm [2, 3] ∧ s ≠ [] ∧ (P2.scoreSelected s).allScoring = true) := by
  have h := c4_detector_complete [2, 3] (by decide) (by decide) (by decide)
  exact ⟨h.1.mp (by decide), h.2.mp (by decide)⟩

/-! ## Claim C5 -/

/-- C5, amended: in part_002 an accepted roll whose freshly rolled unkept
dice have no scoring option is a farkle — in the resulting state
`turnPoints` is 0, the kept mask is all-false, the dice are cleared to the
unrolled sentinel, the active seat flips to the other seat, the phase is
`must_roll`, and the seats (names and scores) are untouched.  The
hypotheses are the part_002 roll guards: game started, intent from the
active seat over its bound socket, phase `must_roll` or `selecting`, and
(an ongoing game) no winner recorded.  (The first server.js variant's
farkle branch performs the same reset and seat flip but never clears the
dice — see the counterexample.) -/
theorem c5_farkle_transition (room : P2.Room) (seat : Nat) (sock : String)
    (rolled : List Nat)
    (hstart : room.game.started = true)
    (hseat : seat = room.game.turnSeat)
    (hsock : (P2.playerAt room seat).socketId = some sock)
    (hphase : room.game.phase = P2.Phase.mustRoll ∨ room.game.phase = P2.Phase.selecting)
    (hwin : room.game.winnerSeat = none)
    (hfark : P2.availableScoringFaces
      (P2.unkeptFaces (P2.mergeDice room.game.dice room.game.keptMask rolled)
        room.game.keptMask) = false) :
    (P2.applyIntent room (P2.Intent.roll seat sock rolled)).game.turnPoints = 0 ∧
    (P2.applyIntent room (P2.Intent.roll seat sock rolled)).game.keptMask =
      List.replicate 6 false ∧
    (P2.applyIntent room (P2.Intent.roll seat sock rolled)).game.dice =
      List.replicate 6 0 ∧
    (P2.applyIntent room (P2.Intent.roll seat sock rolled)).game.turnSeat =
      (if room.game.turnSeat = 0 then 1 else 0) ∧
    (P2.applyIntent room (P2.Intent.roll seat sock rolled)).game.phase =
      P2.Phase.mustRoll ∧
    (P2.applyIntent room (P2.Intent.roll seat sock rolled)).players = room.players := by
  simp only [P2.applyIntent]
  rw [if_neg (by rw [hstart]; exact fun h => by cases h)]
  rw [if_neg (by rw [hseat]; exact fun h => h rfl)]
  rw [if_neg (fun h => h hsock)]
  rw [if_neg (by
    rcases hphase with h | h <;> rw [h] <;> rintro ⟨h1, h2⟩
    · exact h1 rfl
    · exact h2 rfl)]
  rw [if_pos hfark]
  unfold P2.nextTurn
  rw [if_neg (by rw [hwin]; exact fun h => h rfl)]
  unfold P2.resetTurnKeep
  exact ⟨rfl, rfl, rfl, rfl, rfl, rfl⟩

/-- C5, witness: the theorem applied to a concrete room where seat 0 rolls
`[2,2,3,3,4,6]` (no 1/5, no triple, not a special combo) and farkles. -/
theorem c5_farkle_transition_witness :
    (P2.applyIntent
      ⟨(⟨some "Ann", some "s0", 100, true⟩, ⟨some "Bea", some "s1", 0, true⟩),
        ⟨true, none, 0, P2.Phase.mustRoll, List.replicate 6 0,
          List.replicate 6 false, 6, 0⟩⟩
      (P2.Intent.roll 0 "s0" [2, 2, 3, 3, 4, 6])).game.turnSeat = 1 := by
  have h := c5_farkle_transition
    ⟨(⟨some "Ann", some "s0", 100, true⟩, ⟨some "Bea", some "s1", 0, true⟩),
      ⟨true, none, 0, P2.Phase.mustRoll, List.replicate 6 0,
        List.replicate 6 false, 6, 0⟩⟩
    0 "s0" [2, 2, 3, 3, 4, 6] rfl rfl (by decide) (Or.inl rfl) rfl (by decide)
  simpa using h.2.2.2.1

/-- C5, counterexample: the claim also cites the first server.js variant's
`turn:roll` farkle branch and asserts that the farkle transition leaves
"the dice cleared"; but that branch never rewrites `room.dice` — here seat 0
rolls the farkle `[2,2,3,3,4,6]` from a fresh board, the handler accepts the
roll, resets `turnPoints`/`held`/`canRoll` and flips the seat, yet the
broadcast state still shows the farkled dice values (not the variant's own
`[1,1,1,1,1,1]` reset board, which only `resetTurn` writes). -/
theorem c5_counterexample :
    (V1.rollStep
      ⟨(⟨"Ann", 100⟩, ⟨"Bea", 0⟩), 0, V1.Phase.turn, 300, [1, 1, 1, 1, 1, 1],
        List.replicate 6 false, true⟩ 0 [2, 2, 3, 3, 4, 6] true =
      some ⟨(⟨"Ann", 100⟩, ⟨"Bea", 0⟩), 1, V1.Phase.turn, 0, [2, 2, 3, 3, 4, 6],
        List.replicate 6 false, true⟩) ∧
    ((V1.rollStep
      ⟨(⟨"Ann", 100⟩, ⟨"Bea", 0⟩), 0, V1.Phase.turn, 300, [1, 1, 1, 1, 1, 1],
        List.replicate 6 false, true⟩ 0 [2, 2, 3, 3, 4, 6] true).map
        (fun r => r.dice) = some [2, 2, 3, 3, 4, 6]) := by decide

/-! ## Claim C6 -/

/-- Writing a seat back never touches the game state. -/
theorem setPlayerAt_game (room : P2.Room) (seat : Nat) (p : P2.Player) :
    (P2.setPlayerAt room seat p).game = room.game := by
  unfold P2.setPlayerAt
  split_ifs <;> rfl

/-- `startIfReady` either clears the kept mask or leaves it alone. -/
theorem startIfReady_keptMask (r : P2.Room) :
    (P2.startIfReady r).game.keptMask = List.replicate 6 false ∨
    (P2.startIfReady r).game.keptMask = r.game.keptMask := by
  unfold P2.startIfReady P2.resetTurnKeep
  split_ifs
  · exact Or.inl rfl
  · exact Or.inr rfl

/-- `nextTurn` either clears the kept mask or leaves it alone. -/
theorem nextTurn_keptMask (g : P2.Game) :
    (P2.nextTurn g).keptMask = List.replicate 6 false ∨ (P2.nextTurn g).keptMask = g.keptMask := by
  unfold P2.nextTurn P2.resetTurnKeep
  split_ifs
  · exact Or.inr rfl
  · exact Or.inl rfl
  · exact Or.inl rfl

/-- Every part_002 intent leaves the kept mask either cleared, unchanged, or
not-all-true by construction. -/
theorem applyIntent_keptMask_cases (room : P2.Room) (i : P2.Intent) :
    (P2.applyIntent room i).game.keptMask = List.replicate 6 false ∨
    (P2.applyIntent room i).game.keptMask = room.game.keptMask ∨
    (P2.applyIntent room i).game.keptMask.all id = false := by
  cases i with
  | joinTable name sock =>
    simp only [P2.applyIntent]
    split
    · exact Or.inr (Or.inl rfl)
    · rcases startIfReady_keptMask (P2.setPlayerAt room _ _) with h | h
      · exact Or.inl h
      · rw [h, setPlayerAt_game]
        exact Or.inr (Or.inl rfl)
  | newGame =>
    simp only [P2.applyIntent]
    rcases startIfReady_keptMask _ with h | h
    · exact Or.inl h
    · rw [h]
      exact Or.inl rfl
  | roll seat sock rolled =>
    simp only [P2.applyIntent]
    split_ifs
    · exact Or.inr (Or.inl rfl)
    · exact Or.inr (Or.inl rfl)
    · exact Or.inr (Or.inl rfl)
    · exact Or.inr (Or.inl rfl)
    · rcases nextTurn_keptMask { room.game with
        dice := P2.mergeDice room.game.dice room.game.keptMask rolled } with h | h
      · exact Or.inl h
      · rw [h]
        exact Or.inr (Or.inl rfl)
    · exact Or.inr (Or.inl rfl)
  | keep seat sock idxs =>
    simp only [P2.applyIntent]
    split_ifs with h1 h2 h3 h4 h5 h6 h7
    · exact Or.inr (Or.inl rfl)
    · exact Or.inr (Or.inl rfl)
    · exact Or.inr (Or.inl rfl)
    · exact Or.inr (Or.inl rfl)
    · exact Or.inr (Or.inl rfl)
    · exact Or.inr (Or.inl rfl)
    · exact Or.inl rfl
    · exact Or.inr (Or.inr (Bool.eq_false_iff.mpr h7))
  | bank seat sock =>
    simp only [P2.applyIntent]
    split_ifs
    · exact Or.inr (Or.inl rfl)
    · exact Or.inr (Or.inl rfl)
    · exact Or.inr (Or.inl rfl)
    · exact Or.inr (Or.inl rfl)
    · rw [show ∀ r : P2.Room, ∀ g : P2.Game, ({ r with game := g } : P2.Room).game.keptMask
        = g.keptMask from fun _ _ => rfl]
      rw [setPlayerAt_game]
      exact Or.inr (Or.inl rfl)
    · rcases nextTurn_keptMask (P2.setPlayerAt room seat _).game with h | h
      · exact Or.inl h
      · rw [h, setPlayerAt_game]
        exact Or.inr (Or.inl rfl)
  | disconnect seat sock =>
    simp only [P2.applyIntent]
    split_ifs
    · rw [setPlayerAt_game]
      exact Or.inr (Or.inl rfl)
    · exact Or.inr (Or.inl rfl)

/-- C6, amended: in part_002 the hot-dice normalization holds — an accepted
keep leaves the phase at `must_roll` (another roll is required before any
further keep, which demands phase `selecting`) and adds exactly the score of
the selected faces to `turnPoints`; and no intent can ever produce (hence
broadcast) an all-true kept mask from a state without one, since a keep that
would fill the mask resets it to all-false in the same step.  (In the first
server.js variant the claim fails: `turn:toggleHold` broadcasts `held`
masks with all six entries true — see the counterexample.) -/
theorem c6_hot_dice_normalized (room : P2.Room) (seat : Nat) (sock : String)
    (idxs : List Nat)
    (hpre : room.game.keptMask.all id = false) :
    (∀ i : P2.Intent, (P2.applyIntent room i).game.keptMask.all id = false) ∧
    (P2.applyIntent room (P2.Intent.keep seat sock idxs) ≠ room →
      (P2.applyIntent room (P2.Intent.keep seat sock idxs)).game.phase = P2.Phase.mustRoll ∧
      (P2.applyIntent room (P2.Intent.keep seat sock idxs)).game.turnPoints =
        room.game.turnPoints + (P2.scoreSelected ((P2.uniqueIndices idxs).map
          (fun j => room.game.dice.getD j 0))).score) := by
  constructor
  · intro i
    rcases applyIntent_keptMask_cases room i with h | h | h
    · rw [h]
      decide
    · rw [h]
      exact hpre
    · exact h
  · intro hne
    simp only [P2.applyIntent] at hne ⊢
    split_ifs at hne ⊢ with h1 h2 h3 h4 h5 h6 h7
    · exact absurd rfl hne
    · exact absurd rfl hne
    · exact absurd rfl hne
    · exact absurd rfl hne
    · exact absurd rfl hne
    · exact absurd rfl hne
    · exact ⟨rfl, rfl⟩
    · exact ⟨rfl, rfl⟩

/-- C6, witness: the amended theorem applied at a concrete hot-dice keep —
three 5s are kept on top of three already-kept dice, the keep is accepted
(`turnPoints` goes from 200 to 700) and the broadcast mask is not all-true. -/
theorem c6_hot_dice_normalized_witness :
    ((P2.applyIntent
      ⟨(⟨some "Ann", some "s0", 0, true⟩, ⟨some "Bea", some "s1", 0, true⟩),
        ⟨true, none, 0, P2.Phase.selecting, [2, 2, 2, 5, 5, 5],
          [true, true, true, false, false, false], 3, 200⟩⟩
      (P2.Intent.keep 0 "s0" [3, 4, 5])).game.keptMask.all id = false) ∧
    ((P2.applyIntent
      ⟨(⟨some "Ann", some "s0", 0, true⟩, ⟨some "Bea", some "s1", 0, true⟩),
        ⟨true, none, 0, P2.Phase.selecting, [2, 2, 2, 5, 5, 5],
          [true, true, true, false, false, false], 3, 200⟩⟩
      (P2.Intent.keep 0 "s0" [3, 4, 5])).game.turnPoints = 700) := by
  have h := c6_hot_dice_normalized
    ⟨(⟨some "Ann", some "s0", 0, true⟩, ⟨some "Bea", some "s1", 0, true⟩),
      ⟨true, none, 0, P2.Phase.selecting, [2, 2, 2, 5, 5, 5],
        [true, true, true, false, false, false], 3, 200⟩⟩
    0 "s0" [3, 4, 5] (by decide)
  refine ⟨h.1 (P2.Intent.keep 0 "s0" [3, 4, 5]), ?_⟩
  have h2 := (h.2 (by decide)).2
  rw [h2]
  decide

/-- C6, counterexample: the claim also asserts that an all-true kept mask is
never present in any state broadcast to the room; but in the first server.js
variant `held` doubles as the selection mask, and `turn:toggleHold` happily
broadcasts a room whose `held` is all-true — here the active seat, after a
roll, toggles the last free die of `[2,2,2,5,5,5]` and the emitted state has
`held = [true × 6]`. -/
theorem c6_counterexample :
    V1.toggleHoldStep
      ⟨(⟨"Ann", 0⟩, ⟨"Bea", 0⟩), 0, V1.Phase.turn, 300, [2, 2, 2, 5, 5, 5],
        [true, true, true, true, true, false], false⟩ 0 5 =
      some ⟨(⟨"Ann", 0⟩, ⟨"Bea", 0⟩), 0, V1.Phase.turn, 300, [2, 2, 2, 5, 5, 5],
        List.replicate 6 true, false⟩ := by decide

/-! ## Claim C7 -/

/-- C7, amended: in the part_002 keep handler a request whose sanitized
index set is empty, or contains an index that is already kept, is rejected
with no state change.  (Out-of-range and duplicate indices are silently
dropped by the sanitization `[...new Set(idxs)].filter(...)` rather than
rejecting the whole intent — see the counterexample — and since accepted
selections draw only on unkept indices, a die kept earlier never contributes
points a second time.) -/
theorem c7_keep_rejections (room : P2.Room) (seat : Nat) (sock : String) (idxs : List Nat)
    (h : P2.uniqueIndices idxs = [] ∨
      ∃ i ∈ P2.uniqueIndices idxs, room.game.keptMask.getD i false = true) :
    P2.applyIntent room (P2.Intent.keep seat sock idxs) = room := by
  simp only [P2.applyIntent]
  split_ifs with h1 h2 h3 h4 h5 h6 h7
  · rfl
  · rfl
  · rfl
  · rfl
  · rfl
  · rfl
  all_goals rcases h with he | ⟨i, him, hkept⟩
  · exact absurd (by rw [he]; simp only [List.map_nil]; decide) h6
  · exact absurd (List.any_eq_true.mpr ⟨i, him, hkept⟩) h5
  · exact absurd (by rw [he]; simp only [List.map_nil]; decide) h6
  · exact absurd (List.any_eq_true.mpr ⟨i, him, hkept⟩) h5

/-- C7, witness: the amended theorem applied at a concrete room — keeping
index 0, which is already kept, is rejected, and so is an empty request. -/
theorem c7_keep_rejections_witness :
    (P2.applyIntent
      ⟨(⟨some "Ann", some "s0", 0, true⟩, ⟨some "Bea", some "s1", 0, true⟩),
        ⟨true, none, 0, P2.Phase.selecting, [1, 2, 2, 3, 3, 4],
          [true, false, false, false, false, false], 5, 100⟩⟩
      (P2.Intent.keep 0 "s0" [0]) =
      ⟨(⟨some "Ann", some "s0", 0, true⟩, ⟨some "Bea", some "s1", 0, true⟩),
        ⟨true, none, 0, P2.Phase.selecting, [1, 2, 2, 3, 3, 4],
          [true, false, false, false, false, false], 5, 100⟩⟩) ∧
    (P2.applyIntent
      ⟨(⟨some "Ann", some "s0", 0, true⟩, ⟨some "Bea", some "s1", 0, true⟩),
        ⟨true, none, 0, P2.Phase.selecting, [1, 2, 2, 3, 3, 4],
          [true, false, false, false, false, false], 5, 100⟩⟩
      (P2.Intent.keep 0 "s0" []) =
      ⟨(⟨some "Ann", some "s0", 0, true⟩, ⟨some "Bea", some "s1", 0, true⟩),
        ⟨true, none, 0, P2.Phase.selecting, [1, 2, 2, 3, 3, 4],
          [true, false, false, false, false, false], 5, 100⟩⟩) := by
  constructor
  · exact c7_keep_rejections _ 0 "s0" [0] (Or.inr ⟨0, by decide, by decide⟩)
  · exact c7_keep_rejections _ 0 "s0" [] (Or.inl (by decide))

/-- C7, counterexample: the claim says a keep request containing duplicate
indices is rejected with no state change; but part_002 deduplicates instead:
the request `[0, 0]` on a fresh roll `[1,2,2,3,3,4]` is accepted as `{0}`,
keeping the 1 and crediting 100 points. -/
theorem c7_counterexample :
    (P2.applyIntent
      ⟨(⟨some "Ann", some "s0", 0, true⟩, ⟨some "Bea", some "s1", 0, true⟩),
        ⟨true, none, 0, P2.Phase.selecting, [1, 2, 2, 3, 3, 4],
          List.replicate 6 false, 6, 0⟩⟩
      (P2.Intent.keep 0 "s0" [0, 0])).game.turnPoints = 100 ∧
    P2.applyIntent
      ⟨(⟨some "Ann", some "s0", 0, true⟩, ⟨some "Bea", some "s1", 0, true⟩),
        ⟨true, none, 0, P2.Phase.selecting, [1, 2, 2, 3, 3, 4],
          List.replicate 6 false, 6, 0⟩⟩
      (P2.Intent.keep 0 "s0" [0, 0]) ≠
      ⟨(⟨some "Ann", some "s0", 0, true⟩, ⟨some "Bea", some "s1", 0, true⟩),
        ⟨true, none, 0, P2.Phase.selecting, [1, 2, 2, 3, 3, 4],
          List.replicate 6 false, 6, 0⟩⟩ := by decide

/-! ## Claim C8 -/

/-- Reading back a just-written seat. -/
theorem playerAt_setPlayerAt (room : P2.Room) (seat : Nat) (p : P2.Player)
    (h : seat = 0 ∨ seat = 1) :
    P2.playerAt (P2.setPlayerAt room seat p) seat = p := by
  rcases h with h | h <;> subst h <;> unfold P2.playerAt P2.setPlayerAt <;> simp

/-- Replacing the game leaves the seats alone. -/
theorem playerAt_game_update (room : P2.Room) (g : P2.Game) (seat : Nat) :
    P2.playerAt { room with game := g } seat = P2.playerAt room seat := rfl

/-- C8, amended: in part_002 a bank from the active seat (over its bound
socket, in an ongoing started game) succeeds exactly when `turnPoints > 0`,
with no minimum-entry threshold: at `turnPoints = 0` the intent is rejected
with no state change, and otherwise the points are credited to the seat's
score and the turn resets (or, on reaching 10000, the winner is recorded).
(The claim fails on the other server.js variants: `game:bank` additionally
enforces a 500-point entry minimum, and `turn:bank` accepts a bank of 0 —
see the counterexample.) -/
theorem c8_bank_iff (room : P2.Room) (seat : Nat) (sock : String)
    (hstart : room.game.started = true)
    (hseat : seat = room.game.turnSeat)
    (hsock : (P2.playerAt room seat).socketId = some sock)
    (hwin : room.game.winnerSeat = none) :
    (room.game.turnPoints = 0 → P2.applyIntent room (P2.Intent.bank seat sock) = room) ∧
    (0 < room.game.turnPoints →
      (P2.playerAt (P2.applyIntent room (P2.Intent.bank seat sock)) seat).score =
        (P2.playerAt room seat).score + room.game.turnPoints ∧
      ((P2.playerAt room seat).score + room.game.turnPoints < 10000 →
        (P2.applyIntent room (P2.Intent.bank seat sock)).game.turnPoints = 0 ∧
        (P2.applyIntent room (P2.Intent.bank seat sock)).game.phase = P2.Phase.mustRoll ∧
        (P2.applyIntent room (P2.Intent.bank seat sock)).game.turnSeat =
          (if room.game.turnSeat = 0 then 1 else 0)) ∧
      (10000 ≤ (P2.playerAt room seat).score + room.game.turnPoints →
        (P2.applyIntent room (P2.Intent.bank seat sock)).game.winnerSeat = some seat ∧
        (P2.applyIntent room (P2.Intent.bank seat sock)).game.phase = P2.Phase.finished)) := by
  have hseat01 : seat = 0 ∨ seat = 1 := by
    by_contra hno
    push_neg at hno
    have hblank : P2.playerAt room seat = ⟨none, none, 0, false⟩ := by
      unfold P2.playerAt
      rw [if_neg hno.1, if_neg hno.2]
    rw [hblank] at hsock
    cases hsock
  simp only [P2.applyIntent]
  rw [if_neg (by rw [hstart]; exact fun h => by cases h)]
  rw [if_neg (fun h => h hseat)]
  rw [if_neg (fun h => h hsock)]
  constructor
  · intro h0
    rw [if_pos h0]
  · intro hpos
    rw [if_neg (by omega)]
    by_cases hbig : 10000 ≤ (P2.playerAt room seat).score + room.game.turnPoints
    · rw [if_pos hbig]
      refine ⟨?_, fun hlt => by omega, fun _ => ⟨rfl, rfl⟩⟩
      rw [playerAt_game_update, playerAt_setPlayerAt room seat _ hseat01]
    · rw [if_neg hbig]
      refine ⟨?_, fun _ => ?_, fun hge => by omega⟩
      · rw [playerAt_game_update, playerAt_setPlayerAt room seat _ hseat01]
      · unfold P2.nextTurn
        rw [setPlayerAt_game]
        rw [if_neg (by rw [hwin]; exact fun h => h rfl)]
        exact ⟨rfl, rfl, rfl⟩

/-- C8, witness: the amended theorem applied at a concrete room — a bank of
300 on a total of 0 succeeds in part_002 (no entry minimum), crediting the
score and passing the turn, and a bank with `turnPoints = 0` is rejected. -/
theorem c8_bank_iff_witness :
    ((P2.playerAt (P2.applyIntent
      ⟨(⟨some "Ann", some "s0", 0, true⟩, ⟨some "Bea", some "s1", 0, true⟩),
        ⟨true, none, 0, P2.Phase.mustRoll, [1, 1, 1, 2, 3, 4],
          [true, true, true, false, false, false], 3, 300⟩⟩
      (P2.Intent.bank 0 "s0")) 0).score = 300) ∧
    (P2.applyIntent
      ⟨(⟨some "Ann", some "s0", 0, true⟩, ⟨some "Bea", some "s1", 0, true⟩),
        ⟨true, none, 0, P2.Phase.mustRoll, List.replicate 6 0,
          List.replicate 6 false, 6, 0⟩⟩
      (P2.Intent.bank 0 "s0") =
      ⟨(⟨some "Ann", some "s0", 0, true⟩, ⟨some "Bea", some "s1", 0, true⟩),
        ⟨true, none, 0, P2.Phase.mustRoll, List.replicate 6 0,
          List.replicate 6 false, 6, 0⟩⟩) := by
  constructor
  · have h := (c8_bank_iff
      ⟨(⟨some "Ann", some "s0", 0, true⟩, ⟨some "Bea", some "s1", 0, true⟩),
        ⟨true, none, 0, P2.Phase.mustRoll, [1, 1, 1, 2, 3, 4],
          [true, true, true, false, false, false], 3, 300⟩⟩
      0 "s0" rfl rfl rfl rfl).2 (by decide)
    exact h.1
  · exact (c8_bank_iff
      ⟨(⟨some "Ann", some "s0", 0, true⟩, ⟨some "Bea", some "s1", 0, true⟩),
        ⟨true, none, 0, P2.Phase.mustRoll, List.replicate 6 0,
          List.replicate 6 false, 6, 0⟩⟩
      0 "s0" rfl rfl rfl rfl).1 rfl

/-- C8, counterexample: the claim says a bank succeeds if and only if
`turnPoints > 0`, with no additional minimum-entry threshold; but the second
server.js variant's `game:bank` rejects a 300-point bank because the seat's
total is 0 and the entry minimum is 500, and the first variant's `turn:bank`
accepts a bank with `turnPoints = 0`, flipping the active seat. -/
theorem c8_counterexample :
    (V2.gameBankStep
      ⟨(⟨"Ann", some "s0", 0⟩, ⟨"Bea", some "s1", 0⟩),
        ⟨V2.Status.playing, 10000, 500, 0, [1, 1, 1, 2, 3, 4],
          [true, true, true, false, false, false], true, 300, none⟩⟩ "s0" = none) ∧
    (V1.bankStep
      ⟨(⟨"Ann", 100⟩, ⟨"Bea", 0⟩), 0, V1.Phase.turn, 0, [1, 1, 1, 1, 1, 1],
        List.replicate 6 false, true⟩ 0 =
      some ⟨(⟨"Ann", 100⟩, ⟨"Bea", 0⟩), 1, V1.Phase.turn, 0, [1, 1, 1, 1, 1, 1],
        List.replicate 6 false, true⟩) := by decide

/-! ## Claim C9 -/

/-- C9: the winning bank in part_002 does record the winner and move the
phase to `finished`, and roll/keep are then rejected; but the game state is
not frozen: the handler leaves `turnPoints` at its banked value and `bank`
has no phase or winner guard, so a second bank intent from the same seat is
accepted after GAME_OVER and credits the score again.  Here seat 0 banks 200
at a score of 9900 (reaching 10100, game over), then banks the stale 200
once more, mutating the score to 10300. -/
theorem c9_bank_after_game_over :
    ((P2.applyIntent
      ⟨(⟨some "Ann", some "s0", 9900, true⟩, ⟨some "Bea", some "s1", 0, true⟩),
        ⟨true, none, 0, P2.Phase.selecting, [1, 1, 2, 3, 4, 6],
          [true, true, false, false, false, false], 4, 200⟩⟩
      (P2.Intent.bank 0 "s0")).game.phase = P2.Phase.finished) ∧
    ((P2.applyIntent
      ⟨(⟨some "Ann", some "s0", 9900, true⟩, ⟨some "Bea", some "s1", 0, true⟩),
        ⟨true, none, 0, P2.Phase.selecting, [1, 1, 2, 3, 4, 6],
          [true, true, false, false, false, false], 4, 200⟩⟩
      (P2.Intent.bank 0 "s0")).game.winnerSeat = some 0) ∧
    ((P2.applyIntent
      ⟨(⟨some "Ann", some "s0", 9900, true⟩, ⟨some "Bea", some "s1", 0, true⟩),
        ⟨true, none, 0, P2.Phase.selecting, [1, 1, 2, 3, 4, 6],
          [true, true, false, false, false, false], 4, 200⟩⟩
      (P2.Intent.bank 0 "s0")).players.1.score = 10100) ∧
    ((P2.applyIntent
      ⟨(⟨some "Ann", some "s0", 9900, true⟩, ⟨some "Bea", some "s1", 0, true⟩),
        ⟨true, none, 0, P2.Phase.selecting, [1, 1, 2, 3, 4, 6],
          [true, true, false, false, false, false], 4, 200⟩⟩
      (P2.Intent.bank 0 "s0")).game.turnPoints = 200) ∧
    ((P2.applyIntent (P2.applyIntent
      ⟨(⟨some "Ann", some "s0", 9900, true⟩, ⟨some "Bea", some "s1", 0, true⟩),
        ⟨true, none, 0, P2.Phase.selecting, [1, 1, 2, 3, 4, 6],
          [true, true, false, false, false, false], 4, 200⟩⟩
      (P2.Intent.bank 0 "s0")) (P2.Intent.bank 0 "s0")).players.1.score = 10300) := by decide

/-! ## Claim C10 -/

/-- `ensureInProgress` never reseats anyone. -/
theorem ensureInProgress_players (r : P1.Room) :
    (P1.ensureInProgress r).players = r.players := by
  unfold P1.ensureInProgress
  split_ifs <;> rfl

/-- `ensureInProgress` never touches the scores. -/
theorem ensureInProgress_scores (r : P1.Room) :
    (P1.ensureInProgress r).game.scores = r.game.scores := by
  unfold P1.ensureInProgress
  split_ifs <;> rfl

/-- A slot that is not reclaimable yields no rebinding. -/
theorem tryReclaim_eq_none (slot : Option P1.Player) (clean sock : String)
    (h : ¬ P1.reclaimable slot clean) : P1.tryReclaim slot clean sock = none := by
  unfold P1.tryReclaim
  cases slot with
  | none => rfl
  | some p =>
    simp only []
    rw [if_neg (fun hh => h ⟨p, rfl, hh.1, hh.2⟩)]

/-- C10: the part_001 `room:join` handler rebinds a join with a
case-insensitively matching display name to the seat that holds that name
while offline (`sid = none`): the seat index is granted back (seat 0 first,
then seat 1 when seat 0 does not match), the seat keeps its stored name and
comes back online on the new socket, the other seat is untouched, no new
seat is allocated, and the game's scores are preserved.  Rebinding requires
`!p.sid`, so an online seat is never displaced here. -/
theorem c10_reclaim_offline (room : P1.Room) (name sock : String) :
    (∀ p : P1.Player, room.players.1 = some p → p.sid = none →
      lowerStr p.name = lowerStr (P1.cleanName name) →
      (P1.joinStep room name sock).2 = some 0 ∧
      (P1.joinStep room name sock).1.players.1 =
        some { p with sid := some sock, online := true } ∧
      (P1.joinStep room name sock).1.players.2 = room.players.2 ∧
      (P1.joinStep room name sock).1.game.scores = room.game.scores) ∧
    (∀ p : P1.Player, ¬ P1.reclaimable room.players.1 (P1.cleanName name) →
      room.players.2 = some p → p.sid = none →
      lowerStr p.name = lowerStr (P1.cleanName name) →
      (P1.joinStep room name sock).2 = some 1 ∧
      (P1.joinStep room name sock).1.players.2 =
        some { p with sid := some sock, online := true } ∧
      (P1.joinStep room name sock).1.players.1 = room.players.1 ∧
      (P1.joinStep room name sock).1.game.scores = room.game.scores) := by
  constructor
  · intro p hp hsid hname
    have ht : P1.tryReclaim room.players.1 (P1.cleanName name) sock =
        some { p with sid := some sock, online := true } := by
      rw [hp]
      unfold P1.tryReclaim
      simp only []
      rw [if_pos ⟨hsid, hname⟩]
    simp only [P1.joinStep, ht]
    refine ⟨trivial, ?_, ?_, ?_⟩
    · rw [show ∀ r : P1.Room, (P1.ensureInProgress r).players.1 = r.players.1 from
        fun r => by rw [ensureInProgress_players]]
    · rw [show ∀ r : P1.Room, (P1.ensureInProgress r).players.2 = r.players.2 from
        fun r => by rw [ensureInProgress_players]]
    · rw [ensureInProgress_scores]
  · intro p hn0 hp hsid hname
    have ht0 : P1.tryReclaim room.players.1 (P1.cleanName name) sock = none :=
      tryReclaim_eq_none _ _ _ hn0
    have ht : P1.tryReclaim room.players.2 (P1.cleanName name) sock =
        some { p with sid := some sock, online := true } := by
      rw [hp]
      unfold P1.tryReclaim
      simp only []
      rw [if_pos ⟨hsid, hname⟩]
    simp only [P1.joinStep, ht0, ht]
    refine ⟨trivial, ?_, ?_, ?_⟩
    · rw [show ∀ r : P1.Room, (P1.ensureInProgress r).players.2 = r.players.2 from
        fun r => by rw [ensureInProgress_players]]
    · rw [show ∀ r : P1.Room, (P1.ensureInProgress r).players.1 = r.players.1 from
        fun r => by rw [ensureInProgress_players]]
    · rw [ensureInProgress_scores]

/-- C10, witness: the theorem applied at a concrete room — "Ann" is offline
on seat 0 with 700 points, the game is in progress, and a join as `" ann "`
(which trims and lowercases to her name) rebinds seat 0, preserving name,
score and the other seat. -/
theorem c10_reclaim_offline_witness :
    (P1.joinStep
      ⟨(some ⟨"Ann", none, false⟩, some ⟨"Bea", some "s1", true⟩),
        ⟨P1.Stage.IN_PROGRESS, (700, 300), 1, [1, 1, 1, 1, 1, 1],
          List.replicate 6 false, true, false, false, 0, none, 10000⟩⟩
      " ann " "s9").2 = some 0 ∧
    (P1.joinStep
      ⟨(some ⟨"Ann", none, false⟩, some ⟨"Bea", some "s1", true⟩),
        ⟨P1.Stage.IN_PROGRESS, (700, 300), 1, [1, 1, 1, 1, 1, 1],
          List.replicate 6 false, true, false, false, 0, none, 10000⟩⟩
      " ann " "s9").1.players.1 = some ⟨"Ann", some "s9", true⟩ ∧
    (P1.joinStep
      ⟨(some ⟨"Ann", none, false⟩, some ⟨"Bea", some "s1", true⟩),
        ⟨P1.Stage.IN_PROGRESS, (700, 300), 1, [1, 1, 1, 1, 1, 1],
          List.replicate 6 false, true, false, false, 0, none, 10000⟩⟩
      " ann " "s9").1.game.scores = (700, 300) := by
  have h := (c10_reclaim_offline
    ⟨(some ⟨"Ann", none, false⟩, some ⟨"Bea", some "s1", true⟩),
      ⟨P1.Stage.IN_PROGRESS, (700, 300), 1, [1, 1, 1, 1, 1, 1],
        List.replicate 6 false, true, false, false, 0, none, 10000⟩⟩
    " ann " "s9").1 ⟨"Ann", none, false⟩ rfl rfl (by decide)
  exact ⟨h.1, h.2.1, by rw [h.2.2.2]⟩

/-- C10, counterexample: the claim says rebinding happens only when the
matched seat is offline, never by displacing an online seat; but the
part_002 `join_table` handler matches by name alone — joining as "ann" while
"Ann" is still online on seat 0 (socket "s1") hijacks the seat, rebinding it
to the new socket "s9" (the score is preserved, but the live connection is
displaced). -/
theorem c10_counterexample :
    (P2.applyIntent
      ⟨(⟨some "Ann", some "s1", 700, true⟩, ⟨some "Bea", some "s2", 0, true⟩),
        ⟨true, none, 0, P2.Phase.mustRoll, List.replicate 6 0,
          List.replicate 6 false, 6, 0⟩⟩
      (P2.Intent.joinTable "ann" "s9")).players.1 =
      ⟨some "ann", some "s9", 700, true⟩ := by decide

